import Mathlib

/-!
Shallow embedding of the process-execution engine in `src/cmd.rs`
(`Cmd`, `CmdOutput`, and the spawn/read/collect/wait pipeline).

Modelling conventions:
* Machine side effects (OS spawn outcome, the bytes arriving on the two
  pipes, the arrival interleaving of line events on the mpsc channel, and
  the child's final exit status) are explicit parameters.
* A pipe is a `List (Except Unit String)`: each element is one line yielded
  by `BufReader::lines()`, `Except.error ()` standing for an `Err` result
  (e.g. invalid UTF-8).  `spawn().unwrap()` on a spawn failure panics on the
  caller's thread, which is fatal to the process (`RunOutcome.panics`).
  `line.unwrap()` on an `Err` panics inside a detached reader thread: under
  default unwind semantics this kills only that reader, so the reader
  forwards exactly the `Ok` prefix before the first `Err` (`readerSent`)
  and the main thread still returns a `CmdOutput` from whatever events
  arrived on the channel.
* The drained channel history is a `List (String × Bool)` exactly as in the
  source, the `Bool` being the `is_stdout` tag.
* Console echoes (`println!` / `eprintln!`) are recorded in the collector
  result; the sequential actions of `Cmd::run` are additionally reified as
  a trace of `RunAction`s for temporal claims.
-/

/-- `secrecy::SecretString`: an opaque wrapper whose text is reachable only
through `expose_secret`. -/
structure SecretString where
  secret : String
  deriving DecidableEq, Repr

def SecretString.expose_secret (s : SecretString) : String :=
  s.secret

/-- `std::process::ExitStatus`, abstracted: `code = some n` is a normal exit
with code `n`, `none` is termination by signal. -/
structure ExitStatus where
  code : Option Int
  deriving DecidableEq, Repr

/-- `ExitStatus::success`. -/
def ExitStatus.success (s : ExitStatus) : Bool :=
  s.code == some 0

/-- Rust's `str::trim`: leading and trailing whitespace removed (modelled on
the character list; `Char.isWhitespace` stands for `char::is_whitespace`). -/
def rustTrim (s : String) : String :=
  ⟨((s.data.dropWhile Char.isWhitespace).reverse.dropWhile Char.isWhitespace).reverse⟩

/-- `CmdOutput` from `src/cmd.rs` (fields `status` and `stdout`; the stderr
field is commented out in the source). -/
structure CmdOutput where
  status : ExitStatus
  stdout : String
  deriving DecidableEq, Repr

/-- `CmdOutput::stdout`, the accessor: returns the buffer trimmed. -/
def CmdOutput.stdout' (o : CmdOutput) : String :=
  rustTrim o.stdout

/-- `CmdOutput::status`, the accessor. -/
def CmdOutput.status' (o : CmdOutput) : ExitStatus :=
  o.status

/-- `Cmd` from `src/cmd.rs`.  `BTreeMap<String, SecretString>` is modelled as
an association list, `Utf8PathBuf` as `String`. -/
structure Cmd where
  name : String
  env_vars : List (String × SecretString)
  args : List String
  current_dir : Option String
  hide_stdout : Bool
  hide_stderr : Bool
  title : Option String
  deriving DecidableEq, Repr

/-- `Cmd::new`: stores the program name and the arguments, every other field
at its default. -/
def Cmd.new (cmd_name : String) (args : List String) : Cmd :=
  { name := cmd_name
    args := args
    current_dir := none
    hide_stdout := false
    hide_stderr := false
    env_vars := []
    title := none }

/-- `Cmd::with_current_dir`. -/
def Cmd.with_current_dir (c : Cmd) (dir : String) : Cmd :=
  { c with current_dir := some dir }

/-- `Cmd::hide_stdout` (the builder method; primed to avoid clashing with
the field projection). -/
def Cmd.hide_stdout' (c : Cmd) : Cmd :=
  { c with hide_stdout := true }

/-- `Cmd::hide_stderr` (the builder method; primed to avoid clashing with
the field projection). -/
def Cmd.hide_stderr' (c : Cmd) : Cmd :=
  { c with hide_stderr := true }

/-- `Cmd::with_title`. -/
def Cmd.with_title (c : Cmd) (title : String) : Cmd :=
  { c with title := some title }

/-- `Cmd::build_command_description`: the title if supplied, else
`format!("🚀 {} {}", name, args.join(" "))`, then
`format!(" 👉 {}", dir)` appended when a working directory is set. -/
def Cmd.build_command_description (c : Cmd) : String :=
  let description :=
    match c.title with
    | some t => t
    | none => "🚀 " ++ c.name ++ " " ++ String.intercalate " " c.args
  match c.current_dir with
  | some dir => description ++ " 👉 " ++ dir
  | none => description

/-- The `std::process::Command` state assembled by `Cmd::configure_command`:
program, optional working directory, and the OS environment-table entries
set via `command.env(key, value.expose_secret())`. -/
structure OsCommand where
  program : String
  dir : Option String
  env : List (String × String)
  deriving DecidableEq, Repr

/-- `Cmd::configure_command`. -/
def Cmd.configure_command (c : Cmd) : OsCommand :=
  { program := c.name
    dir := c.current_dir
    env := c.env_vars.map (fun kv => (kv.1, kv.2.expose_secret)) }

/-- The lines a reader task (`Cmd::spawn_output_reader`) actually forwards
to the channel: it walks `reader.lines()` in order and `line.unwrap()`
panics at the first `Err`, killing only that detached thread, so exactly
the `Ok` prefix before the first `Err` is sent. -/
def readerSent : List (Except Unit String) → List String
  | [] => []
  | Except.error _ :: _ => []
  | Except.ok l :: rest => l :: readerSent rest

/-- Whether a reader task panics while draining its pipe: it does exactly
when the pipe contains an `Err` line (the panic terminates only that
reader thread, not the host process). -/
def readerPanicked (pipe : List (Except Unit String)) : Bool :=
  pipe.any (fun l => match l with
    | Except.error _ => true
    | Except.ok _ => false)

/-- The subsequence of channel-event texts carrying a given `is_stdout` tag,
in arrival order. -/
def streamLines (events : List (String × Bool)) (tag : Bool) : List String :=
  (events.filter (fun e => e.2 == tag)).map Prod.fst

/-- The collector's state: the two accumulation buffers from
`Cmd::collect_output`, plus the lines echoed to each console stream
(`println!` / `eprintln!`), recorded for observation. -/
structure CollectResult where
  output_stdout : String
  output_stderr : String
  echoed_stdout : List String
  echoed_stderr : List String
  deriving DecidableEq, Repr

/-- One iteration of the `for (line, is_stdout) in rx` loop of
`Cmd::collect_output`. -/
def collectStep (c : Cmd) (verbose : Bool) (acc : CollectResult)
    (ev : String × Bool) : CollectResult :=
  if ev.2 then
    { acc with
      echoed_stdout :=
        if verbose && !c.hide_stdout then acc.echoed_stdout ++ [ev.1]
        else acc.echoed_stdout
      output_stdout := acc.output_stdout ++ ev.1 ++ "\n" }
  else
    { acc with
      echoed_stderr :=
        if verbose && !c.hide_stderr then acc.echoed_stderr ++ [ev.1]
        else acc.echoed_stderr
      output_stderr := acc.output_stderr ++ ev.1 ++ "\n" }

/-- `Cmd::collect_output`: drain the (already closed) channel history,
starting from empty buffers. -/
def Cmd.collect_output (c : Cmd) (verbose : Bool)
    (events : List (String × Bool)) : CollectResult :=
  events.foldl (collectStep c verbose) ⟨"", "", [], []⟩

/-- Outcome of `Cmd::run`: it either returns a `CmdOutput`, or a fatal panic
ends the process; the function has no error branch. -/
inductive RunOutcome where
  | returns (out : CmdOutput)
  | panics
  deriving DecidableEq, Repr

/-- `Cmd::run`.  `spawnOk` is the outcome of `spawn()` (`false` makes
`spawn().unwrap()` panic on the caller's thread, which is fatal);
`stdoutPipe`/`stderrPipe` are the raw line results the two reader tasks
see; `events` is the drained channel history (an interleaving of what the
readers sent: its per-stream projections match `readerSent` of each pipe,
a connection stated as a hypothesis where a claim needs it, since the
interleaving is nondeterministic); `status` is what `child.wait()`
resolves to.  A reader hitting an `Err` line panics only inside its own
detached thread — its sender is dropped, the channel still closes, and the
main thread returns normally with whatever was collected. -/
def Cmd.run (c : Cmd) (verbose : Bool) (spawnOk : Bool)
    (stdoutPipe stderrPipe : List (Except Unit String))
    (events : List (String × Bool)) (status : ExitStatus) : RunOutcome :=
  if !spawnOk then RunOutcome.panics
  else
    RunOutcome.returns
      { status := status
        stdout := (c.collect_output verbose events).output_stdout }

/-- The sequential actions `Cmd::run` performs on a successful execution,
in program order: optional description print, spawn, the collector's
consumption of every channel event, `child.wait()`, and the return. -/
inductive RunAction where
  | printLine (s : String)
  | spawnChild
  | consumeEvent (line : String) (is_stdout : Bool)
  | waitChild (status : ExitStatus)
  | returnResult (out : CmdOutput)
  deriving DecidableEq, Repr

/-- The action trace of a successful `Cmd::run` execution. -/
def Cmd.runTrace (c : Cmd) (verbose : Bool) (events : List (String × Bool))
    (status : ExitStatus) : List RunAction :=
  (if verbose then [RunAction.printLine c.build_command_description] else [])
    ++ RunAction.spawnChild ::
      (events.map (fun e => RunAction.consumeEvent e.1 e.2)
        ++ [RunAction.waitChild status,
            RunAction.returnResult
              { status := status
                stdout := (c.collect_output verbose events).output_stdout }])

/-! ### Basic lemmas about the collector -/

theorem streamLines_nil (tag : Bool) : streamLines [] tag = [] := rfl

theorem streamLines_cons (l : String) (b : Bool) (rest : List (String × Bool))
    (tag : Bool) :
    streamLines ((l, b) :: rest) tag =
      if b == tag then l :: streamLines rest tag else streamLines rest tag := by
  cases b <;> cases tag <;> simp [streamLines]

theorem string_foldl_append (ls : List String) (acc : String) :
    ls.foldl (fun r s => r ++ s) acc = acc ++ ls.foldl (fun r s => r ++ s) "" := by
  induction ls generalizing acc with
  | nil => simp
  | cons a as ih =>
      simp only [List.foldl_cons]
      rw [ih (acc ++ a), ih ("" ++ a)]
      simp [String.append_assoc]

theorem string_join_cons (a : String) (as : List String) :
    String.join (a :: as) = a ++ String.join as := by
  simp only [String.join, List.foldl_cons]
  rw [string_foldl_append as ("" ++ a)]
  simp

theorem foldl_collectStep (c : Cmd) (v : Bool) (events : List (String × Bool))
    (acc : CollectResult) :
    events.foldl (collectStep c v) acc =
      { output_stdout := acc.output_stdout ++
          String.join ((streamLines events true).map (fun l => l ++ "\n"))
        output_stderr := acc.output_stderr ++
          String.join ((streamLines events false).map (fun l => l ++ "\n"))
        echoed_stdout := acc.echoed_stdout ++
          (if v && !c.hide_stdout then streamLines events true else [])
        echoed_stderr := acc.echoed_stderr ++
          (if v && !c.hide_stderr then streamLines events false else []) } := by
  induction events generalizing acc with
  | nil => simp [streamLines, String.join]
  | cons e rest ih =>
      obtain ⟨l, b⟩ := e
      cases b
      · simp only [List.foldl_cons, collectStep, streamLines_cons]
        rw [ih]
        cases hv : v && !c.hide_stderr <;>
          simp [string_join_cons, String.append_assoc]
      · simp only [List.foldl_cons, collectStep, streamLines_cons]
        rw [ih]
        cases hv : v && !c.hide_stdout <;>
          simp [string_join_cons, String.append_assoc]

theorem collect_output_spec (c : Cmd) (v : Bool)
    (events : List (String × Bool)) :
    c.collect_output v events =
      { output_stdout :=
          String.join ((streamLines events true).map (fun l => l ++ "\n"))
        output_stderr :=
          String.join ((streamLines events false).map (fun l => l ++ "\n"))
        echoed_stdout :=
          if v && !c.hide_stdout then streamLines events true else []
        echoed_stderr :=
          if v && !c.hide_stderr then streamLines events false else [] } := by
  rw [Cmd.collect_output, foldl_collectStep]
  rfl

theorem readerSent_map_ok (ls : List String) :
    readerSent (ls.map Except.ok) = ls := by
  induction ls with
  | nil => rfl
  | cons a as ih => simp [readerSent, ih]

/-! ### Claim theorems -/

/-- C9: `Cmd::new` always succeeds (it is total) and yields a spec with the
defaults: no working directory, no title, both streams visible, an empty
environment overlay, and the given program and args preserved in order. -/
theorem c9_new_defaults (p : String) (a : List String) :
    (Cmd.new p a).name = p ∧
    (Cmd.new p a).args = a ∧
    (Cmd.new p a).current_dir = none ∧
    (Cmd.new p a).title = none ∧
    (Cmd.new p a).hide_stdout = false ∧
    (Cmd.new p a).hide_stderr = false ∧
    (Cmd.new p a).env_vars = [] :=
  ⟨rfl, rfl, rfl, rfl, rfl, rfl, rfl⟩

/-- C10: each builder setter changes only its own field and leaves every
other field unchanged; the two hide setters are idempotent. -/
theorem c10_setters_frame (c : Cmd) (d t : String) :
    ((c.with_current_dir d).current_dir = some d ∧
      (c.with_current_dir d).name = c.name ∧
      (c.with_current_dir d).args = c.args ∧
      (c.with_current_dir d).title = c.title ∧
      (c.with_current_dir d).hide_stdout = c.hide_stdout ∧
      (c.with_current_dir d).hide_stderr = c.hide_stderr ∧
      (c.with_current_dir d).env_vars = c.env_vars) ∧
    ((c.with_title t).title = some t ∧
      (c.with_title t).name = c.name ∧
      (c.with_title t).args = c.args ∧
      (c.with_title t).current_dir = c.current_dir ∧
      (c.with_title t).hide_stdout = c.hide_stdout ∧
      (c.with_title t).hide_stderr = c.hide_stderr ∧
      (c.with_title t).env_vars = c.env_vars) ∧
    (c.hide_stdout'.hide_stdout = true ∧
      c.hide_stdout'.name = c.name ∧
      c.hide_stdout'.args = c.args ∧
      c.hide_stdout'.current_dir = c.current_dir ∧
      c.hide_stdout'.title = c.title ∧
      c.hide_stdout'.hide_stderr = c.hide_stderr ∧
      c.hide_stdout'.env_vars = c.env_vars) ∧
    (c.hide_stderr'.hide_stderr = true ∧
      c.hide_stderr'.name = c.name ∧
      c.hide_stderr'.args = c.args ∧
      c.hide_stderr'.current_dir = c.current_dir ∧
      c.hide_stderr'.title = c.title ∧
      c.hide_stderr'.hide_stdout = c.hide_stdout ∧
      c.hide_stderr'.env_vars = c.env_vars) ∧
    c.hide_stdout'.hide_stdout' = c.hide_stdout' ∧
    c.hide_stderr'.hide_stderr' = c.hide_stderr' := by
  refine ⟨⟨rfl, rfl, rfl, rfl, rfl, rfl, rfl⟩,
    ⟨rfl, rfl, rfl, rfl, rfl, rfl, rfl⟩,
    ⟨rfl, rfl, rfl, rfl, rfl, rfl, rfl⟩,
    ⟨rfl, rfl, rfl, rfl, rfl, rfl, rfl⟩, rfl, rfl⟩

/-- C3 counterexample: with no title set, the description printed for
`Cmd::new("git", ["status"])` is `"🚀 git status"`, not the bare
`"<program> <args joined by space>"` string `"git status"` the claim
asserts. -/
theorem c3_counterexample :
    ((Cmd.new "git" ["status"]).runTrace true [] ⟨some 0⟩)[0]? =
        some (RunAction.printLine "🚀 git status") ∧
    "🚀 git status" ≠ "git" ++ " " ++ String.intercalate " " ["status"] := by
  refine ⟨by decide, by decide⟩

/-- C3 (amended): when verbose, `Cmd::run` first prints exactly
`build_command_description`; that description is exactly the title when one
was supplied (never the synthesized form), else the synthesized
`"🚀 <program> <args joined by space>"`, and the working directory is
appended as `" 👉 <dir>"` only when one was set. -/
theorem c3_description (c : Cmd) (v : Bool) (events : List (String × Bool))
    (status : ExitStatus) :
    (v = true →
      (c.runTrace v events status)[0]? =
        some (RunAction.printLine c.build_command_description)) ∧
    (∀ t, c.title = some t → c.current_dir = none →
      c.build_command_description = t) ∧
    (∀ t d, c.title = some t → c.current_dir = some d →
      c.build_command_description = t ++ " 👉 " ++ d) ∧
    (c.title = none → c.current_dir = none →
      c.build_command_description =
        "🚀 " ++ c.name ++ " " ++ String.intercalate " " c.args) ∧
    (∀ d, c.title = none → c.current_dir = some d →
      c.build_command_description =
        "🚀 " ++ c.name ++ " " ++ String.intercalate " " c.args
          ++ " 👉 " ++ d) := by
  refine ⟨?_, ?_, ?_, ?_, ?_⟩
  · intro hv
    subst hv
    simp [Cmd.runTrace]
  · intro t ht hd
    simp [Cmd.build_command_description, ht, hd]
  · intro t d ht hd
    simp [Cmd.build_command_description, ht, hd]
  · intro ht hd
    simp [Cmd.build_command_description, ht, hd]
  · intro d ht hd
    simp [Cmd.build_command_description, ht, hd]

/-- C3 witness: a spec with an explicit title and no directory prints
exactly the title. -/
theorem c3_description_witness :
    ((Cmd.new "git" ["status"]).with_title "check").build_command_description
      = "check" :=
  (c3_description ((Cmd.new "git" ["status"]).with_title "check")
      true [] ⟨some 0⟩).2.1 "check" rfl rfl

/-- C8: the printed description (and the whole action trace of a run) is
identical for any two secret environment overlays — no printing path reads
an overlay value — while the secret text is exposed exactly by
`configure_command`, the function that fills the OS environment table. -/
theorem c8_secrets (c : Cmd) (e1 e2 : List (String × SecretString)) (v : Bool)
    (events : List (String × Bool)) (status : ExitStatus) :
    ({ c with env_vars := e1 } : Cmd).build_command_description =
      ({ c with env_vars := e2 } : Cmd).build_command_description ∧
    ({ c with env_vars := e1 } : Cmd).runTrace v events status =
      ({ c with env_vars := e2 } : Cmd).runTrace v events status ∧
    (Cmd.configure_command c).env =
      c.env_vars.map (fun kv => (kv.1, kv.2.expose_secret)) :=
  ⟨rfl, rfl, rfl⟩

/-- C1: when the stdout reader delivers the lines `ls` in order (the Stdout
events of the channel history are exactly `ls`), the run returns an output
whose stdout accessor is the newline-joined concatenation of those lines,
trimmed on access. -/
theorem c1_stdout_text (c : Cmd) (v : Bool) (stdoutLs stderrLs : List String)
    (events : List (String × Bool)) (status : ExitStatus) (ls : List String)
    (h : streamLines events true = ls) :
    ∃ out,
      c.run v true (stdoutLs.map Except.ok) (stderrLs.map Except.ok)
          events status = RunOutcome.returns out ∧
      out.stdout' = rustTrim (String.join (ls.map (fun l => l ++ "\n"))) := by
  refine ⟨⟨status,
    String.join ((streamLines events true).map (fun l => l ++ "\n"))⟩, ?_, ?_⟩
  · simp [Cmd.run, collect_output_spec]
  · simp [CmdOutput.stdout', h]

/-- C1 witness: the spec scenario — stderr carries `a`, `b`, stdout carries
`c`, `d`; the stdout accessor yields `"c\nd"`. -/
theorem c1_stdout_text_witness :
    ∃ out,
      (Cmd.new "sh" ["-c", "demo"]).run false true
          (["c", "d"].map Except.ok) (["a", "b"].map Except.ok)
          [("a", false), ("b", false), ("c", true), ("d", true)]
          ⟨some 0⟩ = RunOutcome.returns out ∧
      out.stdout' = "c\nd" := by
  obtain ⟨out, h1, h2⟩ :=
    c1_stdout_text (Cmd.new "sh" ["-c", "demo"]) false ["c", "d"] ["a", "b"]
      [("a", false), ("b", false), ("c", true), ("d", true)] ⟨some 0⟩
      ["c", "d"] (by decide)
  refine ⟨out, h1, ?_⟩
  rw [h2]
  decide

/-- C4: two channel histories agreeing on their Stdout subsequence produce
identical run results however their Stderr events differ — the result
carries only the exit status and the stdout buffer, and the stderr text the
collector computed is discarded. -/
theorem c4_stderr_discarded (c : Cmd) (v : Bool)
    (p1 p2 q1 q2 : List String) (events1 events2 : List (String × Bool))
    (status : ExitStatus)
    (h : streamLines events1 true = streamLines events2 true) :
    c.run v true (p1.map Except.ok) (p2.map Except.ok) events1 status =
      c.run v true (q1.map Except.ok) (q2.map Except.ok) events2 status := by
  simp [Cmd.run, collect_output_spec, h]

/-- C4 witness: inserting stderr events around the single stdout event does
not change the returned result. -/
theorem c4_stderr_discarded_witness :
    (Cmd.new "sh" []).run false true (List.map Except.ok [])
        (List.map Except.ok []) [("c", true)] ⟨some 0⟩ =
      (Cmd.new "sh" []).run false true (List.map Except.ok [])
        (List.map Except.ok [])
        [("e", false), ("c", true), ("f", false)] ⟨some 0⟩ :=
  c4_stderr_discarded (Cmd.new "sh" []) false [] [] [] []
    [("c", true)] [("e", false), ("c", true), ("f", false)]
    ⟨some 0⟩ (by decide)

/-- C5: a line is echoed to the matching console stream exactly when
verbosity is on and that stream's hide flag is off, while the accumulation
buffers always receive every line plus a newline; with `hide_stdout = true`
nothing is echoed on stdout yet the stdout buffer keeps all lines. -/
theorem c5_echo_iff (c : Cmd) (v : Bool) (events : List (String × Bool)) :
    (c.collect_output v events).echoed_stdout =
      (if v && !c.hide_stdout then streamLines events true else []) ∧
    (c.collect_output v events).echoed_stderr =
      (if v && !c.hide_stderr then streamLines events false else []) ∧
    (c.collect_output v events).output_stdout =
      String.join ((streamLines events true).map (fun l => l ++ "\n")) ∧
    (c.collect_output v events).output_stderr =
      String.join ((streamLines events false).map (fun l => l ++ "\n")) ∧
    (c.hide_stdout = true → (c.collect_output v events).echoed_stdout = []) := by
  refine ⟨?_, ?_, ?_, ?_, ?_⟩ <;>
    simp [collect_output_spec]
  intro h
  simp [h]

/-- C5 witness: with the stdout stream hidden and verbosity on, no stdout
line is echoed, yet the buffer still holds the line. -/
theorem c5_echo_iff_witness :
    ((Cmd.new "x" []).hide_stdout'.collect_output true
        [("l", true)]).echoed_stdout = [] :=
  (c5_echo_iff (Cmd.new "x" []).hide_stdout' true [("l", true)]).2.2.2.2 rfl

/-- C6: the child's exit status is returned as data, whatever it is: the run
returns normally carrying the raw status, and in the `exit 3` scenario the
result reports failure with code 3 while the run still returns normally. -/
theorem c6_status_is_data (c : Cmd) (v : Bool)
    (stdoutLs stderrLs : List String) (events : List (String × Bool))
    (status : ExitStatus) :
    (c.run v true (stdoutLs.map Except.ok) (stderrLs.map Except.ok)
        events status =
      RunOutcome.returns
        { status := status
          stdout := (c.collect_output v events).output_stdout }) ∧
    (∃ out,
      (Cmd.new "sh" ["-c", "exit 3"]).run false true (List.map Except.ok [])
          (List.map Except.ok []) [] ⟨some 3⟩ = RunOutcome.returns out ∧
      out.status'.success = false ∧ out.status'.code = some 3) := by
  constructor
  · simp [Cmd.run]
  · exact ⟨⟨⟨some 3⟩, ""⟩, by decide, by decide, by decide⟩

/-- C7 counterexample: with a malformed (`Err`) second line on the stdout
pipe, the reader thread panics (`readerPanicked`), yet the run returns a
`CmdOutput` normally, carrying the line delivered before the bad one — the
host process is not aborted, refuting the claim that malformed line data is
fatal to the whole process. -/
theorem c7_counterexample :
    readerPanicked [Except.ok "p", Except.error ()] = true ∧
    (Cmd.new "sh" []).run false true [Except.ok "p", Except.error ()] []
        [("p", true)] ⟨some 0⟩ =
      RunOutcome.returns ⟨⟨some 0⟩, "p\n"⟩ := by
  refine ⟨by decide, by decide⟩

/-- C7 (amended): spawn failure panics the caller's thread and is fatal,
never a recoverable error value; a malformed (`Err`) line on a pipe panics
only that detached reader thread, which stops forwarding at the bad line,
and the run still returns a `CmdOutput` built from the events that arrived
(the `Ok` prefixes of the pipes); in every case `Cmd::run` either returns a
`CmdOutput` or does not return at all — its outcome type has no error
branch. -/
theorem c7_spawn_fatal_partial_decode (c : Cmd) (v : Bool) (spawnOk : Bool)
    (stdoutPipe stderrPipe : List (Except Unit String))
    (events : List (String × Bool)) (status : ExitStatus) :
    (spawnOk = false →
      c.run v spawnOk stdoutPipe stderrPipe events status =
        RunOutcome.panics) ∧
    (spawnOk = true →
      streamLines events true = readerSent stdoutPipe →
      streamLines events false = readerSent stderrPipe →
      c.run v spawnOk stdoutPipe stderrPipe events status =
        RunOutcome.returns
          { status := status
            stdout := String.join
              ((readerSent stdoutPipe).map (fun l => l ++ "\n")) }) ∧
    ((∃ out, c.run v spawnOk stdoutPipe stderrPipe events status =
        RunOutcome.returns out) ∨
      c.run v spawnOk stdoutPipe stderrPipe events status =
        RunOutcome.panics) := by
  refine ⟨?_, ?_, ?_⟩
  · intro h
    simp [Cmd.run, h]
  · intro hs h1 h2
    subst hs
    simp [Cmd.run, collect_output_spec, h1]
  · cases hs : spawnOk
    · exact Or.inr (by simp [Cmd.run])
    · exact Or.inl ⟨⟨status, (c.collect_output v events).output_stdout⟩,
        by simp [Cmd.run]⟩

/-- C7 witness: a failed spawn panics; a run whose stdout pipe carries an
`Ok` line followed by an `Err` line still returns, its stdout buffer being
exactly the lines the reader delivered before the bad line. -/
theorem c7_spawn_fatal_partial_decode_witness :
    (Cmd.new "missing" []).run false false [] [] [] ⟨some 0⟩ =
        RunOutcome.panics ∧
    (Cmd.new "sh" []).run false true [Except.ok "p", Except.error ()] []
        [("p", true)] ⟨some 0⟩ =
      RunOutcome.returns
        { status := ⟨some 0⟩
          stdout := String.join
            ((readerSent [Except.ok "p", Except.error ()]).map
              (fun l => l ++ "\n")) } :=
  ⟨(c7_spawn_fatal_partial_decode (Cmd.new "missing" []) false false [] []
      [] ⟨some 0⟩).1 rfl,
    (c7_spawn_fatal_partial_decode (Cmd.new "sh" []) false true
      [Except.ok "p", Except.error ()] [] [("p", true)] ⟨some 0⟩).2.1
      rfl (by decide) (by decide)⟩

/-- C2: in the action trace of a successful run there is a position `n` such
that the `child.wait()` action (carrying the fully resolved exit status)
sits at `n`, the return — with that same resolved status — sits immediately
after it as the very last action, and every channel-event consumption by
the collector happens strictly before `n`: the session blocks on the
child's exit only after the channel is fully drained, and never returns
before the child has exited. -/
theorem c2_wait_after_drain (c : Cmd) (v : Bool)
    (events : List (String × Bool)) (status : ExitStatus) :
    ∃ n,
      (c.runTrace v events status).length = n + 2 ∧
      (c.runTrace v events status)[n]? =
        some (RunAction.waitChild status) ∧
      (c.runTrace v events status)[n + 1]? =
        some (RunAction.returnResult
          { status := status
            stdout := (c.collect_output v events).output_stdout }) ∧
      ∀ i l b, (c.runTrace v events status)[i]? =
          some (RunAction.consumeEvent l b) → i < n := by
  have hshape : c.runTrace v events status =
      ((if v then [RunAction.printLine c.build_command_description] else [])
          ++ RunAction.spawnChild ::
            events.map (fun e => RunAction.consumeEvent e.1 e.2))
        ++ [RunAction.waitChild status,
            RunAction.returnResult
              { status := status
                stdout := (c.collect_output v events).output_stdout }] := by
    simp [Cmd.runTrace]
  refine ⟨((if v then [RunAction.printLine c.build_command_description]
      else [])
        ++ RunAction.spawnChild ::
          events.map (fun e => RunAction.consumeEvent e.1 e.2)).length,
    ?_, ?_, ?_, ?_⟩
  · rw [hshape, List.length_append]
    rfl
  · rw [hshape, List.getElem?_append_right (Nat.le_refl _)]
    simp
  · rw [hshape, List.getElem?_append_right (Nat.le_succ_of_le (Nat.le_refl _))]
    simp
  · intro i l b hi
    by_contra hlt
    replace hlt := Nat.le_of_not_lt hlt
    rw [hshape, List.getElem?_append_right hlt] at hi
    rcases h2 : i -
        ((if v then [RunAction.printLine c.build_command_description]
          else [])
            ++ RunAction.spawnChild ::
              events.map (fun e => RunAction.consumeEvent e.1 e.2)).length
      with _ | _ | k <;> rw [h2] at hi <;> simp at hi

/-- C2 witness: on a concrete trace with one consumed event, the wait
position lies strictly after the consumption, carries the resolved status,
and is followed only by the return. -/
theorem c2_wait_after_drain_witness :
    ∃ n, 1 < n ∧
      ((Cmd.new "sh" []).runTrace false [("x", true)] ⟨some 3⟩).length
        = n + 2 ∧
      ((Cmd.new "sh" []).runTrace false [("x", true)] ⟨some 3⟩)[n]? =
        some (RunAction.waitChild ⟨some 3⟩) := by
  obtain ⟨n, h1, h2, _, h4⟩ :=
    c2_wait_after_drain (Cmd.new "sh" []) false [("x", true)] ⟨some 3⟩
  exact ⟨n, h4 1 "x" true (by decide), h1, h2⟩
